import Mathlib

/-!
Verification of the report interpretation engine of CC-Diagnostics
(src/cc_diagnostics/output_parser.py) against its specification.

The Python module is shallowly embedded: Python values that can occur in a
diagnostic report are modelled by the inductive type PyVal, Python dicts by
association lists with first-match lookup (Python dicts have unique keys, so
this is faithful), and the two exceptions the module can actually raise
(AttributeError from calling .get/.items on a non-mapping, TypeError from an
order comparison between a non-number and an int) by an Except result.
Numbers are modelled by Int and Rat; the only numeric operations the source
performs are order comparisons against small integer thresholds, on which
IEEE doubles and the rationals they denote agree exactly.
-/

/-- The two exception kinds the interpreter can raise. -/
inductive PyErr where
  | attributeError
  | typeError
deriving DecidableEq, Repr

/-- Python values occurring in diagnostic reports: None, booleans, ints,
floats (as exact rationals), strings, lists and string-keyed dicts. -/
inductive PyVal where
  | none
  | bool (b : Bool)
  | int (n : Int)
  | float (q : ℚ)
  | str (s : String)
  | list (xs : List PyVal)
  | dict (entries : List (String × PyVal))

/-- Python dict lookup with default: d.get(k, dflt).  First match; Python
dicts have unique keys, so first-match lookup is faithful. -/
def dictGet (d : List (String × PyVal)) (k : String) (dflt : PyVal) : PyVal :=
  match d with
  | [] => dflt
  | (k2, v) :: rest => if k2 = k then v else dictGet rest k dflt

/-- Models isinstance(x, (int, float)) plus extraction of the numeric value.
In Python, bool is a subclass of int, so booleans count as numeric. -/
def toRat? : PyVal → Option ℚ
  | .bool b => some (if b then 1 else 0)
  | .int n => some (n : ℚ)
  | .float q => some q
  | _ => Option.none

/-- Models isinstance(x, int) plus extraction (bool is a subclass of int). -/
def toInt? : PyVal → Option Int
  | .bool b => some (if b then 1 else 0)
  | .int n => some n
  | _ => Option.none

/-- Models the Python comparison x == "PASSED": in this value universe only
the string "PASSED" compares equal to "PASSED". -/
def isPassed : PyVal → Bool
  | .str s => s = "PASSED"
  | _ => false

/-- Python str() of the values the source interpolates into messages.  The
source only ever formats isinstance-checked numeric values (and dict keys,
which are plain strings), so only those cases are exercised; the textual
form of a non-integral float is abstracted. -/
def pyFormat : PyVal → String
  | .none => "None"
  | .bool b => if b then "True" else "False"
  | .int n => toString n
  | .float q => if q.den = 1 then toString q.num ++ ".0" else toString q.num ++ "/" ++ toString q.den
  | .str s => s
  | .list _ => "[...]"
  | .dict _ => "\x7b...\x7d"

/-- Boolean startsWith on character lists (structural, kernel-reducible). -/
def charsLeadWith : List Char → List Char → Bool
  | [], _ => true
  | _ :: _, [] => false
  | a :: as, b :: bs => a == b && charsLeadWith as bs

/-- Boolean substring occurrence on character lists. -/
def charsContain (sub : List Char) : List Char → Bool
  | [] => sub.isEmpty
  | c :: rest => charsLeadWith sub (c :: rest) || charsContain sub rest

/-- Models the Python membership test sub in s on strings (for nonempty sub). -/
def strContains (sub s : String) : Bool :=
  charsContain sub.data s.data

/-- Models ", ".join(xs). -/
def joinComma (xs : List String) : String :=
  String.intercalate ", " xs

/- Source constants (output_parser.py lines 7-27). -/

def TEMP_THRESHOLDS_cpu_warning : ℚ := 80
def TEMP_THRESHOLDS_cpu_critical : ℚ := 90
def TEMP_THRESHOLDS_gpu_warning : ℚ := 85
def TEMP_THRESHOLDS_gpu_critical : ℚ := 95
def DISK_THRESHOLDS_warning : ℚ := 80
def DISK_THRESHOLDS_critical : ℚ := 90
def RAM_THRESHOLDS_warning : ℚ := 85
def RAM_THRESHOLDS_critical : ℚ := 95

def STATUS_GOOD : String := "Good"
def STATUS_WARNING : String := "Warning"
def STATUS_CRITICAL : String := "Critical"

/-- Source: _get_status_for_percentage (lru_cache is a pure-function
optimization with no semantic effect). -/
def get_status_for_percentage (value warning_threshold critical_threshold : ℚ) : String :=
  if value ≥ critical_threshold then STATUS_CRITICAL
  else if value ≥ warning_threshold then STATUS_WARNING
  else STATUS_GOOD

/-- Source: _analyze_temperatures.  temps.get("cpu_c") raises AttributeError
when temps is not a mapping; the inner branch on worst_status != CRITICAL is
the source's (always-true at that point) guard, simplified away. -/
def analyze_temperatures : PyVal → Except PyErr (String × List String)
  | .dict ts =>
      let cpu_temp := dictGet ts "cpu_c" PyVal.none
      match toRat? cpu_temp with
      | some t =>
          if t ≥ TEMP_THRESHOLDS_cpu_critical then
            .ok (STATUS_CRITICAL, ["CPU temperature critical: " ++ pyFormat cpu_temp ++ "°C"])
          else if t ≥ TEMP_THRESHOLDS_cpu_warning then
            .ok (STATUS_WARNING, ["CPU temperature high: " ++ pyFormat cpu_temp ++ "°C"])
          else .ok (STATUS_GOOD, [])
      | Option.none => .ok (STATUS_GOOD, [])
  | _ => .error PyErr.attributeError

/-- Source: the for-loop in _analyze_storage collecting drives whose SMART
info is a dict with healthy != "PASSED". -/
def failedDrives (sm : List (String × PyVal)) : List String :=
  sm.filterMap fun pr =>
    match pr.2 with
    | .dict d => if isPassed (dictGet d "healthy" PyVal.none) then Option.none else some pr.1
    | _ => Option.none

/-- Source: _analyze_storage.  storage.get / usage.get / smart_data.items()
raise AttributeError on non-mappings, in source order. -/
def analyze_storage : PyVal → Except PyErr (String × List String)
  | .dict st =>
      match dictGet st "usage" (PyVal.dict []) with
      | .dict us =>
          let used_percent := dictGet us "used_percent" (PyVal.int 0)
          let base : String × List String :=
            match toRat? used_percent with
            | some p =>
                let status := get_status_for_percentage p DISK_THRESHOLDS_warning DISK_THRESHOLDS_critical
                if status = STATUS_CRITICAL then
                  (STATUS_CRITICAL, ["Disk space critically low: " ++ pyFormat used_percent ++ "% used"])
                else if status = STATUS_WARNING then
                  (STATUS_WARNING, ["Disk space running low: " ++ pyFormat used_percent ++ "% used"])
                else (STATUS_GOOD, [])
            | Option.none => (STATUS_GOOD, [])
          match dictGet st "smart" (PyVal.dict []) with
          | .dict sm =>
              let failed := failedDrives sm
              if failed.isEmpty then .ok base
              else .ok (STATUS_CRITICAL,
                base.2 ++ ["SMART health check failed for drives: " ++ joinComma failed])
          | _ => .error PyErr.attributeError
      | _ => .error PyErr.attributeError
  | _ => .error PyErr.attributeError

/-- Source: _analyze_system.  Note the defaults: a missing RAM_GB or Cores
key defaults to 0, which is numeric, so absence triggers the low-RAM and
low-core warnings.  The guard worst_status != CRITICAL is kept as in the
source. -/
def analyze_system : PyVal → Except PyErr (String × List String)
  | .dict sy =>
      let ram_gb := dictGet sy "RAM_GB" (PyVal.int 0)
      let afterRam : String × List String :=
        match toRat? ram_gb with
        | some q =>
            if q < 8 then (STATUS_WARNING, ["Low RAM detected: " ++ pyFormat ram_gb ++ " GB"])
            else (STATUS_GOOD, [])
        | Option.none => (STATUS_GOOD, [])
      let cores := dictGet sy "Cores" (PyVal.int 0)
      match toInt? cores with
      | some c =>
          if c < 4 then
            .ok ((if afterRam.1 ≠ STATUS_CRITICAL then STATUS_WARNING else afterRam.1),
                 afterRam.2 ++ ["Low CPU core count: " ++ pyFormat cores ++ " cores"])
          else .ok afterRam
      | Option.none => .ok afterRam
  | _ => .error PyErr.attributeError

/-- Source: _generate_recommendations.  The disk-usage comparisons
used_percent >= 90 / >= 80 are NOT isinstance-guarded in the source (unlike
in _analyze_storage), so a present non-numeric used_percent raises
TypeError, before the SMART block is reached. -/
def generate_recommendations (storage_warnings temp_warnings system_warnings : List String)
    (storage_data : PyVal) : Except PyErr (List String) :=
  match storage_data with
  | .dict st =>
      match dictGet st "usage" (PyVal.dict []) with
      | .dict us =>
          let used_percent := dictGet us "used_percent" (PyVal.int 0)
          match toRat? used_percent with
          | some p =>
              let diskRecs : List String :=
                if p ≥ DISK_THRESHOLDS_critical then
                  ["Urgent: Free up disk space immediately",
                   "Run disk cleanup utility",
                   "Consider upgrading to a larger drive"]
                else if p ≥ DISK_THRESHOLDS_warning then
                  ["Run disk cleanup to free up space",
                   "Move large files to external storage",
                   "Uninstall unused programs"]
                else []
              match dictGet st "smart" (PyVal.dict []) with
              | .dict sm =>
                  let smartRecs : List String :=
                    if sm.any (fun pr =>
                        match pr.2 with
                        | .dict d => !(isPassed (dictGet d "healthy" PyVal.none))
                        | _ => false) then
                      ["Back up important data immediately",
                       "Consider replacing the failing drive",
                       "Run extended drive diagnostics"]
                    else []
                  let tempRecs : List String :=
                    if temp_warnings.isEmpty then []
                    else
                      ["Check system cooling and clean dust from fans",
                       "Ensure proper ventilation around the computer",
                       "Consider updating thermal paste on CPU"]
                  let systemRecs : List String :=
                    if system_warnings.isEmpty then []
                    else
                      (if system_warnings.any (fun w => strContains "RAM" w) then
                        ["Consider upgrading RAM for better performance"] else []) ++
                      (if system_warnings.any (fun w => strContains "core" w) then
                        ["Consider upgrading CPU for better performance"] else [])
                  .ok (diskRecs ++ smartRecs ++ tempRecs ++ systemRecs)
              | _ => .error PyErr.attributeError
          | Option.none => .error PyErr.typeError
      | _ => .error PyErr.attributeError
  | _ => .error PyErr.attributeError

/-- Source: the status_penalties dict in _calculate_health_score, with its
.get(status, 0) default. -/
def status_penalties (s : String) : Int :=
  if s = STATUS_CRITICAL then 30 else if s = STATUS_WARNING then 15 else 0

/-- Source: _calculate_health_score (lru_cache has no semantic effect). -/
def calculate_health_score (temp_status storage_status system_status : String) : Int :=
  max 0 (100 - status_penalties temp_status - status_penalties storage_status
           - status_penalties system_status)

/-- The component_status mapping of the summary. -/
structure ComponentStatus where
  temperatures : String
  storage : String
  system : String
deriving DecidableEq, Repr

/-- The summary returned by interpret_report. -/
structure Summary where
  status : String
  warnings : List String
  recommendations : List String
  component_status : ComponentStatus
  health_score : Int
deriving DecidableEq, Repr

instance {ε α : Type} [DecidableEq ε] [DecidableEq α] : DecidableEq (Except ε α) := fun x y =>
  match x, y with
  | .ok a, .ok b =>
      if h : a = b then .isTrue (by rw [h]) else .isFalse (by intro hh; cases hh; exact h rfl)
  | .error a, .error b =>
      if h : a = b then .isTrue (by rw [h]) else .isFalse (by intro hh; cases hh; exact h rfl)
  | .ok _, .error _ => .isFalse (by intro hh; cases hh)
  | .error _, .ok _ => .isFalse (by intro hh; cases hh)

/-- Source: interpret_report.  The report parameter is a dict by the
function's own signature; section values of any type are fetched with
report.get(key, \x7b\x7d) and passed to the analyzers in source order. -/
def interpret_report (report : List (String × PyVal)) : Except PyErr Summary :=
  match analyze_temperatures (dictGet report "temps" (PyVal.dict [])) with
  | .error e => .error e
  | .ok (temp_status, temp_warnings) =>
    match analyze_storage (dictGet report "storage" (PyVal.dict [])) with
    | .error e => .error e
    | .ok (storage_status, storage_warnings) =>
      match analyze_system (dictGet report "system" (PyVal.dict [])) with
      | .error e => .error e
      | .ok (system_status, system_warnings) =>
        match generate_recommendations storage_warnings temp_warnings system_warnings
            (dictGet report "storage" (PyVal.dict [])) with
        | .error e => .error e
        | .ok recommendations =>
          .ok { status :=
                  if [temp_status, storage_status, system_status].contains STATUS_CRITICAL then
                    STATUS_CRITICAL
                  else if [temp_status, storage_status, system_status].contains STATUS_WARNING then
                    STATUS_WARNING
                  else STATUS_GOOD,
                warnings := temp_warnings ++ storage_warnings ++ system_warnings,
                recommendations := recommendations,
                component_status :=
                  { temperatures := temp_status, storage := storage_status,
                    system := system_status },
                health_score :=
                  calculate_health_score temp_status storage_status system_status }

/-! ## Specification-side definitions

These follow the wording of spec.md, for comparison with the source
embedding above. -/

/-- Spec §3/§9: severity is the ordinal classification Good < Warning <
Critical. -/
def severityRank (s : String) : Nat :=
  if s = STATUS_CRITICAL then 2 else if s = STATUS_WARNING then 1 else 0

/-- Spec §4.1: the maximum of two statuses under the severity order. -/
def maxStatus (a b : String) : String :=
  if severityRank a < severityRank b then b else a

/-- Spec §4.1 recommendation generation, disk-usage block: used_percent ≥ 90
appends the three urgent lines, else ≥ 80 the three cleanup lines. -/
def specDiskRecBlock (used_percent : PyVal) : List String :=
  match toRat? used_percent with
  | some p =>
      if p ≥ 90 then
        ["Urgent: Free up disk space immediately",
         "Run disk cleanup utility",
         "Consider upgrading to a larger drive"]
      else if p ≥ 80 then
        ["Run disk cleanup to free up space",
         "Move large files to external storage",
         "Uninstall unused programs"]
      else []
  | Option.none => []

/-- Spec §4.1 recommendation generation, SMART block: any SMART failure
appends the three backup lines. -/
def specSmartRecBlock (sm : List (String × PyVal)) : List String :=
  if (failedDrives sm).isEmpty then []
  else
    ["Back up important data immediately",
     "Consider replacing the failing drive",
     "Run extended drive diagnostics"]

/-- Spec §4.1 recommendation generation, temperature block: any temperature
warning present appends the three cooling lines. -/
def specTempRecBlock (temp_warnings : List String) : List String :=
  if temp_warnings.isEmpty then []
  else
    ["Check system cooling and clean dust from fans",
     "Ensure proper ventilation around the computer",
     "Consider updating thermal paste on CPU"]

/-- Spec §4.1 recommendation generation, system block: a system warning
mentioning RAM appends the RAM-upgrade line, one mentioning cores the
CPU-upgrade line. -/
def specSystemRecBlock (system_warnings : List String) : List String :=
  (if system_warnings.any (fun w => strContains "RAM" w) then
    ["Consider upgrading RAM for better performance"] else []) ++
  (if system_warnings.any (fun w => strContains "core" w) then
    ["Consider upgrading CPU for better performance"] else [])

/-- Removes the gpu_c entry from a temps mapping (identity on non-dicts). -/
def scrubTemps : PyVal → PyVal
  | .dict ts => .dict (ts.filter fun pr => pr.1 != "gpu_c")
  | v => v

/-- Removes the temps.gpu_c entry from a report: two reports with the same
scrub differ at most in the presence/value of temps.gpu_c. -/
def scrubGpu (r : List (String × PyVal)) : List (String × PyVal) :=
  r.map fun pr => if pr.1 = "temps" then (pr.1, scrubTemps pr.2) else pr

/-! ## Helper lemmas -/

/-- Eliminator for a successful interpret_report run: recovers the analyzer
results and the exact shape of the summary. -/
theorem interpret_report_cases (r : List (String × PyVal)) (s : Summary)
    (h : interpret_report r = .ok s) :
    ∃ tst tw sst sw yst yw recs,
      analyze_temperatures (dictGet r "temps" (PyVal.dict [])) = .ok (tst, tw) ∧
      analyze_storage (dictGet r "storage" (PyVal.dict [])) = .ok (sst, sw) ∧
      analyze_system (dictGet r "system" (PyVal.dict [])) = .ok (yst, yw) ∧
      generate_recommendations sw tw yw (dictGet r "storage" (PyVal.dict [])) = .ok recs ∧
      s = { status := if [tst, sst, yst].contains STATUS_CRITICAL then STATUS_CRITICAL
                      else if [tst, sst, yst].contains STATUS_WARNING then STATUS_WARNING
                      else STATUS_GOOD,
            warnings := tw ++ sw ++ yw,
            recommendations := recs,
            component_status := { temperatures := tst, storage := sst, system := yst },
            health_score := calculate_health_score tst sst yst } := by
  unfold interpret_report at h
  cases ht : analyze_temperatures (dictGet r "temps" (PyVal.dict [])) with
  | error e => simp only [ht] at h; exact Except.noConfusion h
  | ok tp =>
    obtain ⟨tst, tw⟩ := tp
    cases hs : analyze_storage (dictGet r "storage" (PyVal.dict [])) with
    | error e => simp only [ht, hs] at h; exact Except.noConfusion h
    | ok sp =>
      obtain ⟨sst, sw⟩ := sp
      cases hy : analyze_system (dictGet r "system" (PyVal.dict [])) with
      | error e => simp only [ht, hs, hy] at h; exact Except.noConfusion h
      | ok yp =>
        obtain ⟨yst, yw⟩ := yp
        cases hg : generate_recommendations sw tw yw (dictGet r "storage" (PyVal.dict [])) with
        | error e => simp only [ht, hs, hy, hg] at h; exact Except.noConfusion h
        | ok recs =>
          simp only [ht, hs, hy, hg, Except.ok.injEq] at h
          exact ⟨tst, tw, sst, sw, yst, yw, recs, rfl, rfl, rfl, hg, h.symm⟩

/-- Every temperatures component status produced by the analyzer is one of
the three status strings. -/
theorem analyze_temperatures_status_cases (v : PyVal) (st : String) (w : List String)
    (h : analyze_temperatures v = .ok (st, w)) :
    st = STATUS_GOOD ∨ st = STATUS_WARNING ∨ st = STATUS_CRITICAL := by
  cases v <;> simp only [analyze_temperatures] at h <;> try exact Except.noConfusion h
  case dict ts =>
    cases hq : toRat? (dictGet ts "cpu_c" PyVal.none) with
    | none =>
        simp only [hq, Except.ok.injEq, Prod.mk.injEq] at h
        exact Or.inl h.1.symm
    | some t =>
        simp only [hq] at h
        split at h <;> [skip; split at h] <;>
          simp only [Except.ok.injEq, Prod.mk.injEq] at h
        · exact Or.inr (Or.inr h.1.symm)
        · exact Or.inr (Or.inl h.1.symm)
        · exact Or.inl h.1.symm

/-- Every storage component status produced by the analyzer is one of the
three status strings. -/
theorem analyze_storage_status_cases (v : PyVal) (st : String) (w : List String)
    (h : analyze_storage v = .ok (st, w)) :
    st = STATUS_GOOD ∨ st = STATUS_WARNING ∨ st = STATUS_CRITICAL := by
  cases v <;> simp only [analyze_storage] at h <;> try exact Except.noConfusion h
  case dict d =>
    cases hu : dictGet d "usage" (PyVal.dict []) <;> simp only [hu] at h <;>
      try exact Except.noConfusion h
    case dict us =>
      cases hm : dictGet d "smart" (PyVal.dict []) <;> simp only [hm] at h <;>
        try exact Except.noConfusion h
      case dict sm =>
        split at h
        · cases hq : toRat? (dictGet us "used_percent" (PyVal.int 0)) with
          | none =>
              simp only [hq, Except.ok.injEq, Prod.mk.injEq] at h
              exact Or.inl h.1.symm
          | some p =>
              simp only [hq] at h
              split at h <;> [skip; split at h] <;>
                simp only [Except.ok.injEq, Prod.mk.injEq] at h
              · exact Or.inr (Or.inr h.1.symm)
              · exact Or.inr (Or.inl h.1.symm)
              · exact Or.inl h.1.symm
        · simp only [Except.ok.injEq, Prod.mk.injEq] at h
          exact Or.inr (Or.inr h.1.symm)

/-- Every system component status produced by the analyzer is one of the
three status strings (in fact only Good or Warning occur). -/
theorem analyze_system_status_cases (v : PyVal) (st : String) (w : List String)
    (h : analyze_system v = .ok (st, w)) :
    st = STATUS_GOOD ∨ st = STATUS_WARNING ∨ st = STATUS_CRITICAL := by
  cases v <;> simp only [analyze_system] at h <;> try exact Except.noConfusion h
  case dict sy =>
    repeat' split at h
    all_goals first
      | exact Except.noConfusion h
      | (injection h with hp; injection hp with h1 h2; subst h1;
         first
          | exact Or.inl rfl
          | exact Or.inr (Or.inl rfl)
          | exact Or.inr (Or.inr rfl))

/-! ## Claims -/

/-- C1 counterexample: interpret(\x7b\x7d) does NOT return a Good summary with
health_score 100: system.get("RAM_GB", 0) and system.get("Cores", 0) default
to 0, which is numeric and below both thresholds, so the empty report is
penalized. -/
theorem C1_counterexample :
    ¬ ((interpret_report []).toOption.map Summary.status = some "Good" ∧
       (interpret_report []).toOption.map Summary.health_score = some 100) := by
  decide

/-- C1 amended: for every report whose temps, storage and system sections are
absent or empty mappings, the temperature and storage readings are not
penalized, but the system defaults of 0 GB RAM and 0 cores are: the summary
has status Warning, exactly the two low-RAM/low-cores warnings, the two
matching upgrade recommendations, component statuses Good/Good/Warning and
health_score 85.  In particular interpret(\x7b\x7d) returns that summary. -/
theorem C1_amended_empty_sections (r : List (String × PyVal))
    (h1 : dictGet r "temps" (PyVal.dict []) = PyVal.dict [])
    (h2 : dictGet r "storage" (PyVal.dict []) = PyVal.dict [])
    (h3 : dictGet r "system" (PyVal.dict []) = PyVal.dict []) :
    interpret_report r = .ok
      { status := "Warning",
        warnings := ["Low RAM detected: 0 GB", "Low CPU core count: 0 cores"],
        recommendations := ["Consider upgrading RAM for better performance",
                            "Consider upgrading CPU for better performance"],
        component_status := { temperatures := "Good", storage := "Good", system := "Warning" },
        health_score := 85 } := by
  unfold interpret_report
  rw [h1, h2, h3]
  decide

/-- C1 witness: the amended statement applied to the empty report. -/
theorem C1_witness :
    interpret_report [] = .ok
      { status := "Warning",
        warnings := ["Low RAM detected: 0 GB", "Low CPU core count: 0 cores"],
        recommendations := ["Consider upgrading RAM for better performance",
                            "Consider upgrading CPU for better performance"],
        component_status := { temperatures := "Good", storage := "Good", system := "Warning" },
        health_score := 85 } :=
  C1_amended_empty_sections [] rfl rfl rfl

/-- C2 (code bug evaluation): a present but non-numeric
storage.usage.used_percent is treated as absent by _analyze_storage (whose
comparison is isinstance-guarded) but reaches the unguarded comparison
used_percent >= 90 in _generate_recommendations, so interpret raises
TypeError instead of returning a summary. -/
theorem C2_string_used_percent_raises :
    interpret_report
        [("storage", PyVal.dict [("usage", PyVal.dict [("used_percent", PyVal.str "95")])])] =
      .error PyErr.typeError := by
  decide

/-- C3: for every temps mapping, if cpu_c is numeric with value q the
temperatures component is Critical with the critical warning iff q ≥ 90,
Warning with the high warning iff 80 ≤ q < 90, and Good with no warning
otherwise (so exactly 90 is Critical and exactly 80 is Warning); a
non-numeric or missing cpu_c gives Good with no warning. -/
theorem C3_temperature_threshold_law (ts : List (String × PyVal)) :
    (∀ q : ℚ, toRat? (dictGet ts "cpu_c" PyVal.none) = some q →
      analyze_temperatures (PyVal.dict ts) = .ok (
        if q ≥ 90 then
          (STATUS_CRITICAL,
           ["CPU temperature critical: " ++ pyFormat (dictGet ts "cpu_c" PyVal.none) ++ "°C"])
        else if q ≥ 80 then
          (STATUS_WARNING,
           ["CPU temperature high: " ++ pyFormat (dictGet ts "cpu_c" PyVal.none) ++ "°C"])
        else (STATUS_GOOD, []))) ∧
    (toRat? (dictGet ts "cpu_c" PyVal.none) = Option.none →
      analyze_temperatures (PyVal.dict ts) = .ok (STATUS_GOOD, [])) := by
  constructor
  · intro q hq
    simp only [analyze_temperatures, hq, TEMP_THRESHOLDS_cpu_critical,
      TEMP_THRESHOLDS_cpu_warning]
    split <;> [rfl; (split <;> rfl)]
  · intro hq
    simp only [analyze_temperatures, hq]

/-- C3 witness: at the boundary cpu_c = 90 the component is Critical with
the critical warning. -/
theorem C3_witness :
    toRat? (dictGet [("cpu_c", PyVal.int 90)] "cpu_c" PyVal.none) = some 90 ∧
    analyze_temperatures (PyVal.dict [("cpu_c", PyVal.int 90)]) =
      .ok (STATUS_CRITICAL, ["CPU temperature critical: 90°C"]) := by
  refine ⟨by decide, ?_⟩
  have h := (C3_temperature_threshold_law [("cpu_c", PyVal.int 90)]).1 90 (by decide)
  rw [if_pos (by norm_num : (90:ℚ) ≥ 90)] at h
  exact h.trans (by decide)

/-- The usage-based part of _analyze_storage, with the string comparison on
_get_status_for_percentage resolved into the underlying threshold tests
(proved equal to the source form in analyze_storage_eq). -/
def storageBase (us : List (String × PyVal)) : String × List String :=
  match toRat? (dictGet us "used_percent" (PyVal.int 0)) with
  | some p =>
      if p ≥ 90 then
        (STATUS_CRITICAL,
         ["Disk space critically low: " ++ pyFormat (dictGet us "used_percent" (PyVal.int 0)) ++ "% used"])
      else if p ≥ 80 then
        (STATUS_WARNING,
         ["Disk space running low: " ++ pyFormat (dictGet us "used_percent" (PyVal.int 0)) ++ "% used"])
      else (STATUS_GOOD, [])
  | Option.none => (STATUS_GOOD, [])

/-- Characterization of _analyze_storage on mapping-shaped inputs: the
usage-based classification, overridden to Critical with the SMART warning
appended when any drive failed. -/
theorem analyze_storage_eq (d us sm : List (String × PyVal))
    (hu : dictGet d "usage" (PyVal.dict []) = PyVal.dict us)
    (hm : dictGet d "smart" (PyVal.dict []) = PyVal.dict sm) :
    analyze_storage (PyVal.dict d) = .ok (
      if (failedDrives sm).isEmpty then storageBase us
      else (STATUS_CRITICAL, (storageBase us).2 ++
        ["SMART health check failed for drives: " ++ joinComma (failedDrives sm)])) := by
  rcases hq : toRat? (dictGet us "used_percent" (PyVal.int 0)) with _ | p
  · simp [analyze_storage, hu, hm, hq, storageBase, apply_ite]
  · by_cases h90 : p ≥ (90:ℚ)
    · simp [analyze_storage, hu, hm, hq, storageBase, get_status_for_percentage,
        DISK_THRESHOLDS_warning, DISK_THRESHOLDS_critical, STATUS_CRITICAL, STATUS_WARNING,
        STATUS_GOOD, h90, apply_ite]
    · by_cases h80 : p ≥ (80:ℚ)
      · simp [analyze_storage, hu, hm, hq, storageBase, get_status_for_percentage,
          DISK_THRESHOLDS_warning, DISK_THRESHOLDS_critical, STATUS_CRITICAL, STATUS_WARNING,
          STATUS_GOOD, h90, h80, apply_ite]
      · simp [analyze_storage, hu, hm, hq, storageBase, get_status_for_percentage,
          DISK_THRESHOLDS_warning, DISK_THRESHOLDS_critical, STATUS_CRITICAL, STATUS_WARNING,
          STATUS_GOOD, h90, h80, apply_ite]

/-- C4: for every storage mapping whose usage.used_percent is numeric with
value p, the usage-based classification follows the 80/90 threshold law:
the usage warning is the critical one iff p ≥ 90, the low one iff
80 ≤ p < 90, and absent otherwise, and this part is the same expression for
every SMART section; the component status equals the threshold status
whenever SMART reports no failed drive (when it does, C5 applies and the
status is forced to Critical). -/
theorem C4_storage_threshold_law (d us sm : List (String × PyVal)) (p : ℚ)
    (hu : dictGet d "usage" (PyVal.dict []) = PyVal.dict us)
    (hm : dictGet d "smart" (PyVal.dict []) = PyVal.dict sm)
    (hp : toRat? (dictGet us "used_percent" (PyVal.int 0)) = some p) :
    ∃ status : String,
      analyze_storage (PyVal.dict d) = .ok (status,
        (if p ≥ 90 then
          ["Disk space critically low: " ++ pyFormat (dictGet us "used_percent" (PyVal.int 0)) ++ "% used"]
         else if p ≥ 80 then
          ["Disk space running low: " ++ pyFormat (dictGet us "used_percent" (PyVal.int 0)) ++ "% used"]
         else []) ++
        (if (failedDrives sm).isEmpty then []
         else ["SMART health check failed for drives: " ++ joinComma (failedDrives sm)])) ∧
      (failedDrives sm = [] →
        status = if p ≥ 90 then STATUS_CRITICAL else if p ≥ 80 then STATUS_WARNING else STATUS_GOOD) := by
  have he := analyze_storage_eq d us sm hu hm
  by_cases hf : (failedDrives sm).isEmpty
  · rw [if_pos hf] at he
    refine ⟨(storageBase us).1, ?_, ?_⟩
    · rw [he]
      simp only [storageBase, hp]
      split_ifs <;> simp [hf]
    · intro _
      simp only [storageBase, hp]
      split_ifs <;> rfl
  · rw [if_neg hf] at he
    refine ⟨STATUS_CRITICAL, ?_, fun hnil => absurd (by simp [hnil]) hf⟩
    rw [he]
    simp only [storageBase, hp]
    split_ifs <;> simp [hf]

/-- C4 witness: used_percent = 85 with no SMART data yields exactly the
running-low warning and status Warning. -/
theorem C4_witness :
    ∃ status : String,
      analyze_storage (PyVal.dict [("usage", PyVal.dict [("used_percent", PyVal.int 85)])]) =
        .ok (status,
        (if (85:ℚ) ≥ 90 then
          ["Disk space critically low: " ++
            pyFormat (dictGet [("used_percent", PyVal.int 85)] "used_percent" (PyVal.int 0)) ++ "% used"]
         else if (85:ℚ) ≥ 80 then
          ["Disk space running low: " ++
            pyFormat (dictGet [("used_percent", PyVal.int 85)] "used_percent" (PyVal.int 0)) ++ "% used"]
         else []) ++
        (if (failedDrives []).isEmpty then []
         else ["SMART health check failed for drives: " ++ joinComma (failedDrives [])])) ∧
      (failedDrives ([] : List (String × PyVal)) = [] →
        status = if (85:ℚ) ≥ 90 then STATUS_CRITICAL
                 else if (85:ℚ) ≥ 80 then STATUS_WARNING else STATUS_GOOD) :=
  C4_storage_threshold_law [("usage", PyVal.dict [("used_percent", PyVal.int 85)])]
    [("used_percent", PyVal.int 85)] [] 85 rfl rfl (by decide)

/-- C5: any SMART entry that is a mapping whose healthy field is not the
literal string "PASSED" makes its drive a failed drive, and the presence of
a failed drive forces the storage component status to Critical regardless
of used_percent, with the SMART warning (listing exactly the failed drives,
comma-joined) appended after the usage warnings. -/
theorem C5_smart_failure_forces_critical (d us sm : List (String × PyVal))
    (drive : String) (info : List (String × PyVal))
    (hu : dictGet d "usage" (PyVal.dict []) = PyVal.dict us)
    (hm : dictGet d "smart" (PyVal.dict []) = PyVal.dict sm)
    (hmem : (drive, PyVal.dict info) ∈ sm)
    (hfail : isPassed (dictGet info "healthy" PyVal.none) = false) :
    drive ∈ failedDrives sm ∧
    ∃ uw : List String, analyze_storage (PyVal.dict d) = .ok (STATUS_CRITICAL,
      uw ++ ["SMART health check failed for drives: " ++ joinComma (failedDrives sm)]) := by
  have hd : drive ∈ failedDrives sm := by
    unfold failedDrives
    exact List.mem_filterMap.mpr ⟨(drive, PyVal.dict info), hmem, by simp [hfail]⟩
  have hne : ¬(failedDrives sm).isEmpty := by
    cases hfd : failedDrives sm with
    | nil => rw [hfd] at hd; cases hd
    | cons a l => simp
  have he := analyze_storage_eq d us sm hu hm
  rw [if_neg hne] at he
  exact ⟨hd, (storageBase us).2, he⟩

/-- C5 witness: used_percent = 10 with one failed drive still yields storage
status Critical with the SMART warning naming sda. -/
theorem C5_witness :
    "sda" ∈ failedDrives [("sda", PyVal.dict [("healthy", PyVal.str "FAILED")])] ∧
    ∃ uw : List String,
      analyze_storage (PyVal.dict
          [("usage", PyVal.dict [("used_percent", PyVal.int 10)]),
           ("smart", PyVal.dict [("sda", PyVal.dict [("healthy", PyVal.str "FAILED")])])]) =
        .ok (STATUS_CRITICAL,
          uw ++ ["SMART health check failed for drives: " ++
            joinComma (failedDrives [("sda", PyVal.dict [("healthy", PyVal.str "FAILED")])])]) :=
  C5_smart_failure_forces_critical
    [("usage", PyVal.dict [("used_percent", PyVal.int 10)]),
     ("smart", PyVal.dict [("sda", PyVal.dict [("healthy", PyVal.str "FAILED")])])]
    [("used_percent", PyVal.int 10)]
    [("sda", PyVal.dict [("healthy", PyVal.str "FAILED")])]
    "sda" [("healthy", PyVal.str "FAILED")]
    rfl rfl (List.mem_singleton.mpr rfl) (by decide)

/-- True when system.RAM_GB is numeric (or defaulted to 0) and below 8. -/
def ramLowFlag (sy : List (String × PyVal)) : Bool :=
  match toRat? (dictGet sy "RAM_GB" (PyVal.int 0)) with
  | some q => decide (q < 8)
  | Option.none => false

/-- True when system.Cores is an int (or defaulted to 0) and below 4. -/
def coresLowFlag (sy : List (String × PyVal)) : Bool :=
  match toInt? (dictGet sy "Cores" (PyVal.int 0)) with
  | some c => decide (c < 4)
  | Option.none => false

/-- Characterization of _analyze_system on mapping-shaped input: Warning
with the corresponding warnings exactly when the RAM or cores condition
fires, Good with no warning otherwise. -/
theorem analyze_system_eq (sy : List (String × PyVal)) :
    analyze_system (PyVal.dict sy) = .ok (
      (if ramLowFlag sy || coresLowFlag sy then STATUS_WARNING else STATUS_GOOD),
      (if ramLowFlag sy then
        ["Low RAM detected: " ++ pyFormat (dictGet sy "RAM_GB" (PyVal.int 0)) ++ " GB"]
       else []) ++
      (if coresLowFlag sy then
        ["Low CPU core count: " ++ pyFormat (dictGet sy "Cores" (PyVal.int 0)) ++ " cores"]
       else [])) := by
  rcases hr : toRat? (dictGet sy "RAM_GB" (PyVal.int 0)) with _ | q <;>
    rcases hc : toInt? (dictGet sy "Cores" (PyVal.int 0)) with _ | c
  · simp [analyze_system, ramLowFlag, coresLowFlag, hr, hc]
  · by_cases h4 : c < 4 <;>
      simp [analyze_system, ramLowFlag, coresLowFlag, hr, hc, h4,
        STATUS_GOOD, STATUS_WARNING, STATUS_CRITICAL]
  · by_cases h8 : q < 8 <;>
      simp [analyze_system, ramLowFlag, coresLowFlag, hr, hc, h8,
        STATUS_GOOD, STATUS_WARNING, STATUS_CRITICAL]
  · by_cases h8 : q < 8 <;> by_cases h4 : c < 4 <;>
      simp [analyze_system, ramLowFlag, coresLowFlag, hr, hc, h8, h4,
        STATUS_GOOD, STATUS_WARNING, STATUS_CRITICAL]

/-- C6: for every system mapping there are a component status and warnings
such that: numeric RAM_GB below 8 makes the status at least Warning with
the low-RAM warning present; integer Cores below 4 makes the status at
least Warning with the low-core-count warning present; and the status is
Good only if neither condition fires. -/
theorem C6_system_rules (sy : List (String × PyVal)) :
    ∃ st ws, analyze_system (PyVal.dict sy) = .ok (st, ws) ∧
      (∀ q : ℚ, toRat? (dictGet sy "RAM_GB" (PyVal.int 0)) = some q → q < 8 →
        (st = STATUS_WARNING ∨ st = STATUS_CRITICAL) ∧
        ("Low RAM detected: " ++ pyFormat (dictGet sy "RAM_GB" (PyVal.int 0)) ++ " GB") ∈ ws) ∧
      (∀ c : Int, toInt? (dictGet sy "Cores" (PyVal.int 0)) = some c → c < 4 →
        (st = STATUS_WARNING ∨ st = STATUS_CRITICAL) ∧
        ("Low CPU core count: " ++ pyFormat (dictGet sy "Cores" (PyVal.int 0)) ++ " cores") ∈ ws) ∧
      (st = STATUS_GOOD →
        (∀ q : ℚ, toRat? (dictGet sy "RAM_GB" (PyVal.int 0)) = some q → ¬(q < 8)) ∧
        (∀ c : Int, toInt? (dictGet sy "Cores" (PyVal.int 0)) = some c → ¬(c < 4))) := by
  refine ⟨_, _, analyze_system_eq sy, ?_, ?_, ?_⟩
  · intro q hq hlt
    have hflag : ramLowFlag sy = true := by simp [ramLowFlag, hq, hlt]
    constructor
    · rw [hflag]; simp
    · rw [hflag]; simp
  · intro c hc2 hlt
    have hflag : coresLowFlag sy = true := by simp [coresLowFlag, hc2, hlt]
    constructor
    · rw [hflag]; simp
    · rw [hflag]; simp
  · intro hst
    by_cases hflag : (ramLowFlag sy || coresLowFlag sy : Bool)
    · rw [if_pos hflag] at hst
      exact absurd hst (by decide)
    · simp only [Bool.or_eq_true, not_or, Bool.not_eq_true] at hflag
      constructor
      · intro q hq hlt
        have : ramLowFlag sy = true := by simp [ramLowFlag, hq, hlt]
        rw [hflag.1] at this
        cases this
      · intro c hc2 hlt
        have : coresLowFlag sy = true := by simp [coresLowFlag, hc2, hlt]
        rw [hflag.2] at this
        cases this

/-- C6 witness: RAM_GB = 4 and Cores = 2 give status Warning with both
warnings present. -/
theorem C6_witness :
    ∃ st ws,
      analyze_system (PyVal.dict [("RAM_GB", PyVal.int 4), ("Cores", PyVal.int 2)]) =
        .ok (st, ws) ∧
      (st = STATUS_WARNING ∨ st = STATUS_CRITICAL) ∧
      ("Low RAM detected: 4 GB") ∈ ws ∧ ("Low CPU core count: 2 cores") ∈ ws := by
  obtain ⟨st, ws, hok, hram, hcore, hgood⟩ :=
    C6_system_rules [("RAM_GB", PyVal.int 4), ("Cores", PyVal.int 2)]
  obtain ⟨h1, h2⟩ := hram 4 (by decide) (by norm_num)
  obtain ⟨h3, h4⟩ := hcore 2 (by decide) (by norm_num)
  exact ⟨st, ws, hok, h1, by simpa using h2, by simpa using h4⟩

/-- C7: for every report that interprets successfully, the overall status of
the summary is the maximum severity among the three component statuses
under Good < Warning < Critical. -/
theorem C7_overall_is_worst (r : List (String × PyVal)) (s : Summary)
    (h : interpret_report r = .ok s) :
    s.status =
      maxStatus (maxStatus s.component_status.temperatures s.component_status.storage)
        s.component_status.system := by
  obtain ⟨tst, tw, sst, sw, yst, yw, recs, ht, hs2, hy, hg, rfl⟩ :=
    interpret_report_cases r s h
  have Ht := analyze_temperatures_status_cases _ _ _ ht
  have Hs := analyze_storage_status_cases _ _ _ hs2
  have Hy := analyze_system_status_cases _ _ _ hy
  rcases Ht with rfl | rfl | rfl <;> rcases Hs with rfl | rfl | rfl <;>
    rcases Hy with rfl | rfl | rfl <;> (dsimp only; decide)

/-- Example report with components Good, Warning, Good. -/
def reportStorageWarn : List (String × PyVal) :=
  [("storage", PyVal.dict [("usage", PyVal.dict [("used_percent", PyVal.int 85)])]),
   ("system", PyVal.dict [("RAM_GB", PyVal.int 16), ("Cores", PyVal.int 8)])]

/-- The summary interpret_report produces for reportStorageWarn. -/
def summaryStorageWarn : Summary :=
  { status := "Warning",
    warnings := ["Disk space running low: 85% used"],
    recommendations := ["Run disk cleanup to free up space",
                        "Move large files to external storage",
                        "Uninstall unused programs"],
    component_status := { temperatures := "Good", storage := "Warning", system := "Good" },
    health_score := 85 }

/-- C7 witness: components Good, Warning, Good give overall Warning. -/
theorem C7_witness :
    interpret_report reportStorageWarn = .ok summaryStorageWarn ∧
    summaryStorageWarn.status =
      maxStatus (maxStatus summaryStorageWarn.component_status.temperatures
        summaryStorageWarn.component_status.storage)
        summaryStorageWarn.component_status.system :=
  ⟨by decide, C7_overall_is_worst reportStorageWarn summaryStorageWarn (by decide)⟩

/-- C8: for every report that interprets successfully, the health score is
100 minus 30 per Critical component and 15 per Warning component, clamped
below at 0 (three independent deductions). -/
theorem C8_health_score_formula (r : List (String × PyVal)) (s : Summary)
    (h : interpret_report r = .ok s) :
    s.health_score = max 0 (100
      - 30 * (([s.component_status.temperatures, s.component_status.storage,
                s.component_status.system].count STATUS_CRITICAL : Int))
      - 15 * (([s.component_status.temperatures, s.component_status.storage,
                s.component_status.system].count STATUS_WARNING : Int))) := by
  obtain ⟨tst, tw, sst, sw, yst, yw, recs, ht, hs2, hy, hg, rfl⟩ :=
    interpret_report_cases r s h
  have Ht := analyze_temperatures_status_cases _ _ _ ht
  have Hs := analyze_storage_status_cases _ _ _ hs2
  have Hy := analyze_system_status_cases _ _ _ hy
  rcases Ht with rfl | rfl | rfl <;> rcases Hs with rfl | rfl | rfl <;>
    rcases Hy with rfl | rfl | rfl <;> (dsimp only; decide)

/-- Example report with components Critical, Warning, Good. -/
def reportCritWarnGood : List (String × PyVal) :=
  [("temps", PyVal.dict [("cpu_c", PyVal.int 95)]),
   ("storage", PyVal.dict [("usage", PyVal.dict [("used_percent", PyVal.int 85)])]),
   ("system", PyVal.dict [("RAM_GB", PyVal.int 16), ("Cores", PyVal.int 8)])]

/-- The summary interpret_report produces for reportCritWarnGood. -/
def summaryCritWarnGood : Summary :=
  { status := "Critical",
    warnings := ["CPU temperature critical: 95°C", "Disk space running low: 85% used"],
    recommendations := ["Run disk cleanup to free up space",
                        "Move large files to external storage",
                        "Uninstall unused programs",
                        "Check system cooling and clean dust from fans",
                        "Ensure proper ventilation around the computer",
                        "Consider updating thermal paste on CPU"],
    component_status := { temperatures := "Critical", storage := "Warning", system := "Good" },
    health_score := 55 }

/-- C8 witness: one Critical, one Warning and one Good component give
100 - 30 - 15 = 55. -/
theorem C8_witness :
    interpret_report reportCritWarnGood = .ok summaryCritWarnGood ∧
    summaryCritWarnGood.health_score = max 0 (100
      - 30 * (([summaryCritWarnGood.component_status.temperatures,
                summaryCritWarnGood.component_status.storage,
                summaryCritWarnGood.component_status.system].count STATUS_CRITICAL : Int))
      - 15 * (([summaryCritWarnGood.component_status.temperatures,
                summaryCritWarnGood.component_status.storage,
                summaryCritWarnGood.component_status.system].count STATUS_WARNING : Int))) :=
  ⟨by decide, C8_health_score_formula reportCritWarnGood summaryCritWarnGood (by decide)⟩

/-- A successful _analyze_storage run forces the storage section and its
usage and smart entries to be mapping-shaped. -/
theorem analyze_storage_ok_shape (v : PyVal) (st : String) (w : List String)
    (h : analyze_storage v = .ok (st, w)) :
    ∃ d us sm, v = PyVal.dict d ∧ dictGet d "usage" (PyVal.dict []) = PyVal.dict us ∧
      dictGet d "smart" (PyVal.dict []) = PyVal.dict sm := by
  cases v <;> simp only [analyze_storage] at h <;> try exact Except.noConfusion h
  case dict d =>
    cases hu : dictGet d "usage" (PyVal.dict []) <;> simp only [hu] at h <;>
      try exact Except.noConfusion h
    case dict us =>
      cases hm : dictGet d "smart" (PyVal.dict []) <;> simp only [hm] at h <;>
        try exact Except.noConfusion h
      case dict sm => exact ⟨d, us, sm, rfl, hu, hm⟩

/-- The any-check of the SMART recommendation block agrees with non-emptiness
of the failed-drives list of _analyze_storage. -/
theorem smart_any_eq (sm : List (String × PyVal)) :
    (sm.any fun pr =>
      match pr.2 with
      | .dict d2 => !(isPassed (dictGet d2 "healthy" PyVal.none))
      | _ => false) = !(failedDrives sm).isEmpty := by
  induction sm with
  | nil => rfl
  | cons pr rest ih =>
      rcases pr with ⟨k, v⟩
      cases v <;>
        simp only [List.any_cons, failedDrives, List.filterMap_cons] at ih ⊢ <;>
        try simpa using ih
      case dict d2 =>
        cases hp : isPassed (dictGet d2 "healthy" PyVal.none) <;> simp [hp] <;>
          simpa using ih

/-- A successful _generate_recommendations run returns exactly the four
spec blocks in order: disk usage, SMART, temperature, system. -/
theorem generate_recommendations_eq (sw tw yw : List String) (d us sm : List (String × PyVal))
    (hu : dictGet d "usage" (PyVal.dict []) = PyVal.dict us)
    (hm : dictGet d "smart" (PyVal.dict []) = PyVal.dict sm)
    (recs : List String)
    (h : generate_recommendations sw tw yw (PyVal.dict d) = .ok recs) :
    recs = specDiskRecBlock (dictGet us "used_percent" (PyVal.int 0)) ++
      specSmartRecBlock sm ++ specTempRecBlock tw ++ specSystemRecBlock yw := by
  simp only [generate_recommendations, hu, hm] at h
  cases hq : toRat? (dictGet us "used_percent" (PyVal.int 0)) with
  | none => simp only [hq] at h; exact Except.noConfusion h
  | some p =>
      simp only [hq, Except.ok.injEq] at h
      rw [← h]
      congr 1
      · congr 1
        · congr 1
          · simp [specDiskRecBlock, hq, DISK_THRESHOLDS_critical, DISK_THRESHOLDS_warning]
          · rw [smart_any_eq sm]
            unfold specSmartRecBlock
            cases (failedDrives sm).isEmpty <;> rfl
      · unfold specSystemRecBlock
        cases yw with
        | nil => simp
        | cons a l => simp [List.isEmpty_cons]

/-- C9: for every report that interprets successfully, the warnings are the
temperature warnings, then the storage warnings, then the system warnings;
and the recommendations are the disk-usage block, then the SMART block,
then the temperature block, then the system block, each appended exactly
when its trigger condition holds. -/
theorem C9_ordering (r : List (String × PyVal)) (s : Summary)
    (h : interpret_report r = .ok s) :
    ∃ (tst sst yst : String) (tw sw yw : List String) (d us sm : List (String × PyVal)),
      analyze_temperatures (dictGet r "temps" (PyVal.dict [])) = .ok (tst, tw) ∧
      analyze_storage (dictGet r "storage" (PyVal.dict [])) = .ok (sst, sw) ∧
      analyze_system (dictGet r "system" (PyVal.dict [])) = .ok (yst, yw) ∧
      dictGet r "storage" (PyVal.dict []) = PyVal.dict d ∧
      dictGet d "usage" (PyVal.dict []) = PyVal.dict us ∧
      dictGet d "smart" (PyVal.dict []) = PyVal.dict sm ∧
      s.warnings = tw ++ sw ++ yw ∧
      s.recommendations = specDiskRecBlock (dictGet us "used_percent" (PyVal.int 0)) ++
        specSmartRecBlock sm ++ specTempRecBlock tw ++ specSystemRecBlock yw := by
  obtain ⟨tst, tw, sst, sw, yst, yw, recs, ht, hs2, hy, hg, rfl⟩ :=
    interpret_report_cases r s h
  obtain ⟨d, us, sm, hd, hu, hm⟩ := analyze_storage_ok_shape _ _ _ hs2
  rw [hd] at hg
  refine ⟨tst, sst, yst, tw, sw, yw, d, us, sm, ht, hs2, hy, hd, hu, hm, rfl, ?_⟩
  exact generate_recommendations_eq sw tw yw d us sm hu hm recs hg

/-- The spec's worked scenario: low RAM and cores, healthy disk, no temps. -/
def reportScenario : List (String × PyVal) :=
  [("system", PyVal.dict [("RAM_GB", PyVal.int 4), ("Cores", PyVal.int 2)]),
   ("storage", PyVal.dict [("usage", PyVal.dict [("used_percent", PyVal.int 50)])]),
   ("temps", PyVal.dict [])]

/-- The summary interpret_report produces for reportScenario. -/
def summaryScenario : Summary :=
  { status := "Warning",
    warnings := ["Low RAM detected: 4 GB", "Low CPU core count: 2 cores"],
    recommendations := ["Consider upgrading RAM for better performance",
                        "Consider upgrading CPU for better performance"],
    component_status := { temperatures := "Good", storage := "Good", system := "Warning" },
    health_score := 85 }

/-- C9 witness: the spec scenario, with its warnings grouped system-last and
its recommendations equal to the four blocks in order. -/
theorem C9_witness :
    ∃ (tst sst yst : String) (tw sw yw : List String) (d us sm : List (String × PyVal)),
      analyze_temperatures (dictGet reportScenario "temps" (PyVal.dict [])) = .ok (tst, tw) ∧
      analyze_storage (dictGet reportScenario "storage" (PyVal.dict [])) = .ok (sst, sw) ∧
      analyze_system (dictGet reportScenario "system" (PyVal.dict [])) = .ok (yst, yw) ∧
      dictGet reportScenario "storage" (PyVal.dict []) = PyVal.dict d ∧
      dictGet d "usage" (PyVal.dict []) = PyVal.dict us ∧
      dictGet d "smart" (PyVal.dict []) = PyVal.dict sm ∧
      summaryScenario.warnings = tw ++ sw ++ yw ∧
      summaryScenario.recommendations =
        specDiskRecBlock (dictGet us "used_percent" (PyVal.int 0)) ++
        specSmartRecBlock sm ++ specTempRecBlock tw ++ specSystemRecBlock yw :=
  C9_ordering reportScenario summaryScenario (by decide)

/-- Rewriting gpu_c inside temps does not change the cpu_c lookup. -/
theorem dictGet_filter_gpu (ts : List (String × PyVal)) (k : String) (dflt : PyVal)
    (hk : k ≠ "gpu_c") :
    dictGet (ts.filter fun pr => pr.1 != "gpu_c") k dflt = dictGet ts k dflt := by
  induction ts with
  | nil => rfl
  | cons pr rest ih =>
      rcases pr with ⟨k2, v⟩
      by_cases h2 : k2 = "gpu_c"
      · subst h2
        have hne : ¬("gpu_c" = k) := fun hh => hk hh.symm
        simp only [List.filter_cons, bne_self_eq_false, Bool.false_eq_true, if_false, ih,
          dictGet, if_neg hne]
      · have hbne : (k2 != "gpu_c") = true := by simpa [bne_iff_ne] using h2
        simp only [List.filter_cons, hbne, if_true, dictGet]
        by_cases h3 : k2 = k <;> simp [h3, ih]

/-- dictGet on "temps" commutes with scrubbing. -/
theorem scrub_dictGet_temps (r : List (String × PyVal)) :
    dictGet (scrubGpu r) "temps" (PyVal.dict []) =
      scrubTemps (dictGet r "temps" (PyVal.dict [])) := by
  induction r with
  | nil => rfl
  | cons pr rest ih =>
      rcases pr with ⟨k, v⟩
      by_cases hk : k = "temps"
      · subst hk
        simp only [scrubGpu, List.map_cons, if_true]
        simp [dictGet]
      · simp only [scrubGpu, List.map_cons]
        rw [if_neg hk]
        simp only [dictGet]
        rw [if_neg hk, if_neg hk]
        exact ih

/-- dictGet on keys other than "temps" is unchanged by scrubbing. -/
theorem scrub_dictGet_other (r : List (String × PyVal)) (k : String) (dflt : PyVal)
    (hk : k ≠ "temps") :
    dictGet (scrubGpu r) k dflt = dictGet r k dflt := by
  induction r with
  | nil => rfl
  | cons pr rest ih =>
      rcases pr with ⟨k2, v⟩
      have hne : ¬("temps" = k) := fun hh => hk hh.symm
      by_cases h2 : k2 = "temps"
      · subst h2
        simp only [scrubGpu, List.map_cons, if_true]
        simp only [dictGet]
        rw [if_neg hne, if_neg hne]
        exact ih
      · simp only [scrubGpu, List.map_cons]
        rw [if_neg h2]
        simp only [dictGet]
        by_cases h3 : k2 = k
        · rw [if_pos h3, if_pos h3]
        · rw [if_neg h3, if_neg h3]
          exact ih

/-- _analyze_temperatures only reads cpu_c, so scrubbing gpu_c is invisible
to it. -/
theorem analyze_temperatures_scrub (v : PyVal) :
    analyze_temperatures (scrubTemps v) = analyze_temperatures v := by
  cases v <;> try rfl
  case dict ts =>
    simp only [scrubTemps, analyze_temperatures]
    rw [dictGet_filter_gpu ts "cpu_c" PyVal.none (by decide)]

/-- interpret_report is invariant under removing temps.gpu_c. -/
theorem interpret_report_scrub (r : List (String × PyVal)) :
    interpret_report (scrubGpu r) = interpret_report r := by
  unfold interpret_report
  rw [scrub_dictGet_temps, analyze_temperatures_scrub,
    scrub_dictGet_other r "storage" (PyVal.dict []) (by decide),
    scrub_dictGet_other r "system" (PyVal.dict []) (by decide)]

/-- C10: two reports that agree except possibly on the presence or value of
temps.gpu_c produce identical results: interpret_report never consults the
GPU temperature, although GPU thresholds are defined in the source. -/
theorem C10_gpu_noninterference (r1 r2 : List (String × PyVal))
    (h : scrubGpu r1 = scrubGpu r2) :
    interpret_report r1 = interpret_report r2 := by
  rw [← interpret_report_scrub r1, ← interpret_report_scrub r2, h]

/-- C10 witness: an absurd gpu_c of 200 °C changes nothing. -/
theorem C10_witness :
    interpret_report [("temps", PyVal.dict [("gpu_c", PyVal.int 200), ("cpu_c", PyVal.int 50)])] =
      interpret_report [("temps", PyVal.dict [("cpu_c", PyVal.int 50)])] :=
  C10_gpu_noninterference
    [("temps", PyVal.dict [("gpu_c", PyVal.int 200), ("cpu_c", PyVal.int 50)])]
    [("temps", PyVal.dict [("cpu_c", PyVal.int 50)])] rfl
